import Mathlib

/-!
Verification of the snake-game core (`packages/game-core`, file
`engine.ts` / `types.ts`) against its natural-language specification.

The TypeScript core is shallowly embedded:
* JS numbers used as grid coordinates / counters are `Int`.
* JS `%` (remainder with the sign of the dividend) is `Int.tmod`;
  `Math.floor(a / 2)` on integers is `Int.fdiv a 2`.
* Optional fields `wrap?: boolean` and `initialLength?: number` are
  `Option`s; `config.initialLength ?? 4` is `Option.getD _ 4`, and the
  truthiness test `if (config.wrap)` is `Option.getD _ false`.
* `Math.random()` returns a real in `[0, 1)`, so
  `Math.floor(Math.random() * n)` is an arbitrary index in `[0, n)`;
  the draw is modelled by an explicit parameter `rand : Nat`, the index
  taken as `rand % n`.
* `state.snake[0]` is totalized with `List.headD ⟨0, 0⟩`; theorems about
  active states carry the hypothesis `state.snake ≠ []`, where the JS
  code presupposes a nonempty snake.
-/

structure Point where
  x : Int
  y : Int
deriving DecidableEq, Repr

inductive Direction where
  | up
  | down
  | left
  | right
deriving DecidableEq, Repr

structure GameConfig where
  cols : Int
  rows : Int
  initialLength : Option Int := none
  wrap : Option Bool := none
deriving DecidableEq, Repr

structure GameState where
  snake : List Point
  direction : Direction
  food : Point
  score : Int
  isGameOver : Bool
  tick : Int
deriving DecidableEq, Repr

/-- `const opposite: Record<Direction, Direction> = { up: 'down', ... }`. -/
def opposite : Direction → Direction
  | Direction.up => Direction.down
  | Direction.down => Direction.up
  | Direction.left => Direction.right
  | Direction.right => Direction.left

/-- Truthiness of the optional `config.wrap` field (`undefined` is falsy). -/
def GameConfig.wrapOn (config : GameConfig) : Bool :=
  config.wrap.getD false

/-- The free cells of the grid, enumerated row-major (`for y ... for x ...`),
excluding every cell occupied by the given snake body, as in `spawnFood`. -/
def freeCells (config : GameConfig) (snake : List Point) : List Point :=
  (List.range config.rows.toNat).flatMap fun (y : Nat) =>
    (List.range config.cols.toNat).filterMap fun (x : Nat) =>
      if (⟨(x : Int), (y : Int)⟩ : Point) ∈ snake then none
      else some ⟨(x : Int), (y : Int)⟩

/-- `spawnFood(config, snake)`: returns `(-1, -1)` when no free cell exists,
otherwise the free cell at index `Math.floor(Math.random() * freeCells.length)`,
the random draw modelled by `rand`. -/
def spawnFood (config : GameConfig) (rand : Nat) (snake : List Point) : Point :=
  let free := freeCells config snake
  if h : free.length = 0 then
    ⟨-1, -1⟩
  else
    free.get ⟨rand % free.length, Nat.mod_lt _ (Nat.pos_of_ne_zero h)⟩

/-- The `switch (state.direction)` block of `step`: move one cell. -/
def moveHead (dir : Direction) (p : Point) : Point :=
  match dir with
  | Direction.up => ⟨p.x, p.y - 1⟩
  | Direction.down => ⟨p.x, p.y + 1⟩
  | Direction.left => ⟨p.x - 1, p.y⟩
  | Direction.right => ⟨p.x + 1, p.y⟩

/-- The `if (config.wrap)` block of `step`:
`nx = (nx + config.cols) % config.cols` and likewise for `ny`. -/
def wrapPoint (config : GameConfig) (p : Point) : Point :=
  if config.wrapOn then
    ⟨(p.x + config.cols).tmod config.cols, (p.y + config.rows).tmod config.rows⟩
  else p

/-- The candidate head position computed by `step` before the collision
checks: current head moved one cell in `state.direction`, then wrapped
when `config.wrap` is set. -/
def candidateHead (config : GameConfig) (state : GameState) : Point :=
  wrapPoint config (moveHead state.direction (state.snake.headD ⟨0, 0⟩))

/-- The wall-collision guard of `step`:
`!config.wrap && (nx < 0 || ny < 0 || nx >= config.cols || ny >= config.rows)`. -/
def hitsWall (config : GameConfig) (p : Point) : Bool :=
  !config.wrapOn &&
    (decide (p.x < 0) || decide (p.y < 0) ||
     decide (config.cols ≤ p.x) || decide (config.rows ≤ p.y))

/-- The local `willEat` of `step`:
`nx === state.food.x && ny === state.food.y`. -/
def willEat (state : GameState) (newHead : Point) : Bool :=
  newHead.x == state.food.x && newHead.y == state.food.y

/-- The local `bodyToCheck` of `step`:
`willEat ? state.snake : state.snake.slice(0, -1)`. -/
def bodyToCheck (state : GameState) (newHead : Point) : List Point :=
  if willEat state newHead then state.snake else state.snake.dropLast

/-- The self-collision test of `step`:
`bodyToCheck.some(p => p.x === newHead.x && p.y === newHead.y)`. -/
def selfCollides (state : GameState) (newHead : Point) : Bool :=
  (bodyToCheck state newHead).any fun p => p.x == newHead.x && p.y == newHead.y

/-- `step(config, state)`, the tick stepper, with the `Math.random()` draw
made by `spawnFood` in the eating branch modelled by `rand`. -/
def step (config : GameConfig) (rand : Nat) (state : GameState) : GameState :=
  if state.isGameOver then state
  else
    let newHead := candidateHead config state
    if hitsWall config newHead then { state with isGameOver := true }
    else if selfCollides state newHead then { state with isGameOver := true }
    else
      let newSnake :=
        if willEat state newHead then newHead :: state.snake
        else (newHead :: state.snake).dropLast
      let newFood :=
        if willEat state newHead then spawnFood config rand newSnake else state.food
      let newScore := if willEat state newHead then state.score + 10 else state.score
      { state with
          snake := newSnake
          food := newFood
          score := newScore
          tick := state.tick + 1 }

/-- `changeDirection(state, dir)`: ignore exact 180° turns, otherwise set
`direction`.  The in-place mutation is rendered as returning the updated
state. -/
def changeDirection (state : GameState) (dir : Direction) : GameState :=
  if opposite state.direction = dir then state
  else { state with direction := dir }

/-- `createInitialState(config)`: snake of length `max(3, initialLength ?? 4)`
laid out leftwards from the grid centre, direction `right`, food assigned by
`spawnFood` over the initial body (draw modelled by `rand`). -/
def createInitialState (config : GameConfig) (rand : Nat) : GameState :=
  let length := max 3 (config.initialLength.getD 4)
  let startX := config.cols.fdiv 2
  let startY := config.rows.fdiv 2
  let snake : List Point :=
    (List.range length.toNat).map fun (i : Nat) => ⟨startX - (i : Int), startY⟩
  let state : GameState :=
    { snake := snake
      direction := Direction.right
      food := ⟨0, 0⟩
      score := 0
      isGameOver := false
      tick := 0 }
  { state with food := spawnFood config rand state.snake }

/-! ### Helper lemmas -/

theorem mem_freeCells {config : GameConfig} {snake : List Point} {p : Point} :
    p ∈ freeCells config snake ↔
      0 ≤ p.x ∧ p.x < config.cols ∧ 0 ≤ p.y ∧ p.y < config.rows ∧ p ∉ snake := by
  unfold freeCells
  constructor
  · intro hp
    rw [List.mem_flatMap] at hp
    obtain ⟨y, hy, hp⟩ := hp
    rw [List.mem_filterMap] at hp
    obtain ⟨x, hx, hp⟩ := hp
    rw [List.mem_range] at hy hx
    by_cases hmem : (⟨(x : Int), (y : Int)⟩ : Point) ∈ snake
    · rw [if_pos hmem] at hp
      exact absurd hp (by simp)
    · rw [if_neg hmem] at hp
      obtain rfl := (Option.some.injEq _ _).mp hp
      refine ⟨?_, ?_, ?_, ?_, hmem⟩ <;> dsimp <;> omega
  · rintro ⟨hx0, hx1, hy0, hy1, hmem⟩
    have hq : (⟨((p.x.toNat : Nat) : Int), ((p.y.toNat : Nat) : Int)⟩ : Point) = p := by
      obtain ⟨px, py⟩ := p
      dsimp at hx0 hy0 ⊢
      rw [Int.toNat_of_nonneg hx0, Int.toNat_of_nonneg hy0]
    rw [List.mem_flatMap]
    refine ⟨p.y.toNat, ?_, ?_⟩
    · rw [List.mem_range]; omega
    · rw [List.mem_filterMap]
      refine ⟨p.x.toNat, ?_, ?_⟩
      · rw [List.mem_range]; omega
      · rw [hq, if_neg hmem]

theorem freeCells_eq_nil_iff {config : GameConfig} {snake : List Point} :
    freeCells config snake = [] ↔
      ∀ x y : Int, 0 ≤ x → x < config.cols → 0 ≤ y → y < config.rows →
        (⟨x, y⟩ : Point) ∈ snake := by
  rw [List.eq_nil_iff_forall_not_mem]
  constructor
  · intro h x y hx0 hx1 hy0 hy1
    by_contra hmem
    exact h ⟨x, y⟩ (mem_freeCells.mpr ⟨hx0, hx1, hy0, hy1, hmem⟩)
  · intro h p hp
    obtain ⟨hx0, hx1, hy0, hy1, hmem⟩ := mem_freeCells.mp hp
    exact hmem (by simpa using h p.x p.y hx0 hx1 hy0 hy1)

theorem spawnFood_mem {config : GameConfig} {snake : List Point} (rand : Nat)
    (h : freeCells config snake ≠ []) :
    spawnFood config rand snake ∈ freeCells config snake := by
  unfold spawnFood
  rw [dif_neg (by simpa [List.length_eq_zero] using h)]
  exact List.get_mem _ _ _

theorem spawnFood_eq_sentinel {config : GameConfig} {snake : List Point} (rand : Nat)
    (h : freeCells config snake = []) :
    spawnFood config rand snake = ⟨-1, -1⟩ := by
  unfold spawnFood
  rw [dif_pos (by simp [h])]

theorem step_eq_of_gameOver {config : GameConfig} {rand : Nat} {s : GameState}
    (h0 : s.isGameOver = true) : step config rand s = s := by
  simp [step, h0]

theorem step_eq_of_wall {config : GameConfig} {rand : Nat} {s : GameState}
    (h0 : s.isGameOver = false)
    (hw : hitsWall config (candidateHead config s) = true) :
    step config rand s = { s with isGameOver := true } := by
  simp [step, h0, hw]

theorem step_eq_of_selfCollide {config : GameConfig} {rand : Nat} {s : GameState}
    (h0 : s.isGameOver = false)
    (hw : hitsWall config (candidateHead config s) = false)
    (hs : selfCollides s (candidateHead config s) = true) :
    step config rand s = { s with isGameOver := true } := by
  simp [step, h0, hw, hs]

theorem step_eq_of_advance {config : GameConfig} {rand : Nat} {s : GameState}
    (h0 : s.isGameOver = false)
    (hw : hitsWall config (candidateHead config s) = false)
    (hs : selfCollides s (candidateHead config s) = false) :
    step config rand s =
      { s with
          snake :=
            if willEat s (candidateHead config s) then candidateHead config s :: s.snake
            else (candidateHead config s :: s.snake).dropLast
          food :=
            if willEat s (candidateHead config s) then
              spawnFood config rand
                (if willEat s (candidateHead config s) then candidateHead config s :: s.snake
                 else (candidateHead config s :: s.snake).dropLast)
            else s.food
          score := if willEat s (candidateHead config s) then s.score + 10 else s.score
          tick := s.tick + 1 } := by
  simp [step, h0, hw, hs]

/-! ### Concrete fixtures used by witnesses and counterexamples -/

/-- A 5×5 non-wrapping board. -/
def boardPlain : GameConfig := { cols := 5, rows := 5, initialLength := some 3, wrap := some false }

/-- A 5×5 wrapping board. -/
def boardWrap : GameConfig := { cols := 5, rows := 5, initialLength := some 3, wrap := some true }

/-- An active mid-board state: snake head at (2,2) moving right, food far away. -/
def stMid : GameState :=
  { snake := [⟨2, 2⟩, ⟨1, 2⟩, ⟨0, 2⟩], direction := Direction.right,
    food := ⟨4, 4⟩, score := 0, isGameOver := false, tick := 0 }

/-- A terminal state. -/
def stOver : GameState :=
  { snake := [⟨2, 2⟩, ⟨1, 2⟩, ⟨0, 2⟩], direction := Direction.right,
    food := ⟨4, 4⟩, score := 30, isGameOver := true, tick := 7 }

/-- An active state with the head at the right edge, about to leave the board. -/
def stEdge : GameState :=
  { snake := [⟨4, 2⟩, ⟨3, 2⟩, ⟨2, 2⟩], direction := Direction.right,
    food := ⟨0, 0⟩, score := 0, isGameOver := false, tick := 3 }

/-- An active state whose candidate head lands on the food. -/
def stEat : GameState :=
  { snake := [⟨2, 2⟩, ⟨1, 2⟩, ⟨0, 2⟩], direction := Direction.right,
    food := ⟨3, 2⟩, score := 0, isGameOver := false, tick := 2 }

/-- An active state with the sentinel food. -/
def stSentinel : GameState :=
  { snake := [⟨2, 2⟩, ⟨1, 2⟩, ⟨0, 2⟩], direction := Direction.right,
    food := ⟨-1, -1⟩, score := 20, isGameOver := false, tick := 9 }

/-- An active state with the head at the left edge of a wrapping board. -/
def stWrapEdge : GameState :=
  { snake := [⟨0, 2⟩, ⟨1, 2⟩, ⟨2, 2⟩], direction := Direction.left,
    food := ⟨4, 4⟩, score := 0, isGameOver := false, tick := 4 }

/-! ### Claims -/

/-- C1: for every configuration, random draw, and state with `isGameOver = true`,
`step` returns the input state unchanged — in particular the result still has
`isGameOver = true` and the same `snake`, `food`, `score`, and `tick`
(the terminal state is absorbing and `step` is an idempotent no-op on it). -/
theorem step_terminal_absorbing (config : GameConfig) (rand : Nat) (s : GameState)
    (h : s.isGameOver = true) :
    step config rand s = s ∧
    (step config rand s).isGameOver = true ∧
    (step config rand s).snake = s.snake ∧
    (step config rand s).food = s.food ∧
    (step config rand s).score = s.score ∧
    (step config rand s).tick = s.tick := by
  have he : step config rand s = s := step_eq_of_gameOver h
  exact ⟨he, by rw [he]; exact h, by rw [he], by rw [he], by rw [he], by rw [he]⟩

/-- Witness for C1 at a concrete terminal state on a concrete board. -/
theorem step_terminal_absorbing_witness :
    step boardPlain 0 stOver = stOver :=
  (step_terminal_absorbing boardPlain 0 stOver rfl).1

/-- C5: with `wrap` off, an active state whose candidate head lies outside
`[0, cols) × [0, rows)` steps to a copy of the state with `isGameOver = true`
and every other field (`snake`, `direction`, `food`, `score`, `tick`)
unchanged; in particular `tick` is not incremented. -/
theorem step_wall_terminal (config : GameConfig) (rand : Nat) (s : GameState)
    (h0 : s.isGameOver = false) (hne : s.snake ≠ [])
    (hwrap : config.wrapOn = false)
    (hout : (candidateHead config s).x < 0 ∨ (candidateHead config s).y < 0 ∨
            config.cols ≤ (candidateHead config s).x ∨
            config.rows ≤ (candidateHead config s).y) :
    step config rand s = { s with isGameOver := true } ∧
    (step config rand s).isGameOver = true ∧
    (step config rand s).snake = s.snake ∧
    (step config rand s).direction = s.direction ∧
    (step config rand s).food = s.food ∧
    (step config rand s).score = s.score ∧
    (step config rand s).tick = s.tick := by
  have hw : hitsWall config (candidateHead config s) = true := by
    unfold hitsWall
    rw [hwrap]
    simp only [Bool.not_false, Bool.true_and, Bool.or_eq_true, decide_eq_true_eq]
    tauto
  have he := @step_eq_of_wall config rand s h0 hw
  refine ⟨he, ?_, ?_, ?_, ?_, ?_, ?_⟩ <;> rw [he]

/-- Witness for C5: stepping off the right edge of the non-wrapping board. -/
theorem step_wall_terminal_witness :
    step boardPlain 0 stEdge = { stEdge with isGameOver := true } :=
  (step_wall_terminal boardPlain 0 stEdge rfl (by decide) rfl (by decide)).1

/-- C8: `changeDirection` leaves the state entirely unchanged when the
requested direction is the exact geometric opposite of the current one;
any other request (including the same direction) overwrites `direction`;
and in all cases `snake`, `food`, `score`, `tick`, and `isGameOver` are
untouched. -/
theorem changeDirection_spec (s : GameState) (dir : Direction) :
    (dir = opposite s.direction → changeDirection s dir = s) ∧
    (dir ≠ opposite s.direction → (changeDirection s dir).direction = dir) ∧
    (changeDirection s dir).snake = s.snake ∧
    (changeDirection s dir).food = s.food ∧
    (changeDirection s dir).score = s.score ∧
    (changeDirection s dir).tick = s.tick ∧
    (changeDirection s dir).isGameOver = s.isGameOver := by
  unfold changeDirection
  by_cases h : opposite s.direction = dir
  · rw [if_pos h]
    exact ⟨fun _ => rfl, fun hne => absurd h.symm hne, rfl, rfl, rfl, rfl, rfl⟩
  · rw [if_neg h]
    exact ⟨fun he => absurd he.symm h, fun _ => rfl, rfl, rfl, rfl, rfl, rfl⟩

/-- Witness for C8: a 180° request (`left` against `right`) is ignored, and a
perpendicular request (`up`) is applied, on a concrete state. -/
theorem changeDirection_spec_witness :
    changeDirection stMid Direction.left = stMid ∧
    (changeDirection stMid Direction.up).direction = Direction.up :=
  ⟨(changeDirection_spec stMid Direction.left).1 (by decide),
   (changeDirection_spec stMid Direction.up).2.1 (by decide)⟩

/-- C6: `spawnFood` returns the sentinel `(-1, -1)` exactly when every cell of
the `cols × rows` grid is occupied by the given snake body; otherwise it
returns a cell of the row-major free-cell enumeration — a point inside
`[0, cols) × [0, rows)` not occupied by the snake. -/
theorem spawnFood_spec (config : GameConfig) (rand : Nat) (snake : List Point) :
    (spawnFood config rand snake = ⟨-1, -1⟩ ↔
      ∀ x y : Int, 0 ≤ x → x < config.cols → 0 ≤ y → y < config.rows →
        (⟨x, y⟩ : Point) ∈ snake) ∧
    (spawnFood config rand snake ≠ ⟨-1, -1⟩ →
      spawnFood config rand snake ∈ freeCells config snake ∧
      0 ≤ (spawnFood config rand snake).x ∧
      (spawnFood config rand snake).x < config.cols ∧
      0 ≤ (spawnFood config rand snake).y ∧
      (spawnFood config rand snake).y < config.rows ∧
      spawnFood config rand snake ∉ snake) := by
  constructor
  · constructor
    · intro hs
      by_contra hfull
      rw [← freeCells_eq_nil_iff] at hfull
      have hmem := spawnFood_mem rand hfull
      obtain ⟨h1, _, _, _, _⟩ := mem_freeCells.mp hmem
      rw [hs] at h1
      exact absurd h1 (by decide)
    · intro hfull
      exact spawnFood_eq_sentinel rand (freeCells_eq_nil_iff.mpr hfull)
  · intro hne
    have hfree : freeCells config snake ≠ [] := by
      intro hnil
      exact hne (spawnFood_eq_sentinel rand hnil)
    have hmem := spawnFood_mem rand hfree
    obtain ⟨h1, h2, h3, h4, h5⟩ := mem_freeCells.mp hmem
    exact ⟨hmem, h1, h2, h3, h4, h5⟩

/-- Witness for C6 on a concrete board with one occupied cell: the spawned
food is a free in-bounds cell. -/
theorem spawnFood_spec_witness :
    spawnFood boardPlain 5 [(⟨0, 0⟩ : Point)] ∈ freeCells boardPlain [(⟨0, 0⟩ : Point)] ∧
    0 ≤ (spawnFood boardPlain 5 [(⟨0, 0⟩ : Point)]).x ∧
    (spawnFood boardPlain 5 [(⟨0, 0⟩ : Point)]).x < boardPlain.cols ∧
    0 ≤ (spawnFood boardPlain 5 [(⟨0, 0⟩ : Point)]).y ∧
    (spawnFood boardPlain 5 [(⟨0, 0⟩ : Point)]).y < boardPlain.rows ∧
    spawnFood boardPlain 5 [(⟨0, 0⟩ : Point)] ∉ [(⟨0, 0⟩ : Point)] :=
  (spawnFood_spec boardPlain 5 [⟨0, 0⟩]).2 (by decide)

/-- C7: for any configuration with `cols, rows ≥ 1`, `createInitialState`
builds a snake of length `max(3, initialLength ?? 4)` whose segment `i` sits
at `(cols/2 - i, rows/2)` (head at the grid centre), moving `right`, with
`score = 0`, `tick = 0`, `isGameOver = false`; it is total, so it never
fails on such configurations. -/
theorem createInitialState_spec (config : GameConfig) (rand : Nat)
    (hc : 1 ≤ config.cols) (hr : 1 ≤ config.rows) :
    (createInitialState config rand).snake.length =
      (max 3 (config.initialLength.getD 4)).toNat ∧
    (∀ i : Nat, ∀ hi : i < (createInitialState config rand).snake.length,
        (createInitialState config rand).snake.get ⟨i, hi⟩ =
          ⟨config.cols.fdiv 2 - (i : Int), config.rows.fdiv 2⟩) ∧
    (createInitialState config rand).direction = Direction.right ∧
    (createInitialState config rand).score = 0 ∧
    (createInitialState config rand).tick = 0 ∧
    (createInitialState config rand).isGameOver = false := by
  unfold createInitialState
  refine ⟨by simp, ?_, rfl, rfl, rfl, rfl⟩
  intro i hi
  simp only [List.length_map, List.length_range] at hi
  simp [List.get_eq_getElem, List.getElem_map, List.getElem_range]

/-- Witness for C7 on the concrete 5×5 board with `initialLength = 3`:
snake length 3, head at the centre `(2, 2)`, direction `right`. -/
theorem createInitialState_spec_witness :
    (createInitialState boardPlain 0).snake.length = 3 ∧
    (createInitialState boardPlain 0).direction = Direction.right ∧
    (createInitialState boardPlain 0).score = 0 ∧
    (createInitialState boardPlain 0).tick = 0 ∧
    (createInitialState boardPlain 0).isGameOver = false :=
  ⟨((createInitialState_spec boardPlain 0 (by decide) (by decide)).1).trans (by decide),
   (createInitialState_spec boardPlain 0 (by decide) (by decide)).2.2.1,
   (createInitialState_spec boardPlain 0 (by decide) (by decide)).2.2.2.1,
   (createInitialState_spec boardPlain 0 (by decide) (by decide)).2.2.2.2.1,
   (createInitialState_spec boardPlain 0 (by decide) (by decide)).2.2.2.2.2⟩

/-- Two points with equal coordinates are equal. -/
theorem Point.ext_xy {p q : Point} (hx : p.x = q.x) (hy : p.y = q.y) : p = q := by
  cases p
  cases q
  cases hx
  cases hy
  rfl

theorem step_advance_fields {config : GameConfig} {rand : Nat} {s : GameState}
    (h0 : s.isGameOver = false)
    (hw : hitsWall config (candidateHead config s) = false)
    (hs : selfCollides s (candidateHead config s) = false) :
    (step config rand s).score =
      (if willEat s (candidateHead config s) = true then s.score + 10 else s.score) ∧
    (step config rand s).snake =
      (if willEat s (candidateHead config s) = true then candidateHead config s :: s.snake
       else (candidateHead config s :: s.snake).dropLast) ∧
    (step config rand s).food =
      (if willEat s (candidateHead config s) = true then
        spawnFood config rand
          (if willEat s (candidateHead config s) = true then candidateHead config s :: s.snake
           else (candidateHead config s :: s.snake).dropLast)
       else s.food) ∧
    (step config rand s).tick = s.tick + 1 ∧
    (step config rand s).isGameOver = false := by
  rw [@step_eq_of_advance config rand s h0 hw hs]
  exact ⟨rfl, rfl, rfl, rfl, h0⟩

/-- An active state that will self-collide: the head at (2,2) moving up lands
on the body cell (2,1), which is not the tail. -/
def stLoop : GameState :=
  { snake := [⟨2, 2⟩, ⟨2, 1⟩, ⟨1, 1⟩, ⟨1, 2⟩, ⟨1, 3⟩], direction := Direction.up,
    food := ⟨4, 4⟩, score := 0, isGameOver := false, tick := 6 }

/-- C3: on an active state that neither leaves a non-wrapping board nor
self-collides, eating (candidate head = food) adds exactly 10 to `score` and
exactly 1 to the snake length, and the respawned food avoids the new snake
unless the board is full; a non-eating move preserves the snake length exactly
and leaves `food` unchanged; both cases increment `tick` by exactly 1. -/
theorem step_eat_move_spec (config : GameConfig) (rand : Nat) (s : GameState)
    (h0 : s.isGameOver = false) (hne : s.snake ≠ [])
    (hw : hitsWall config (candidateHead config s) = false)
    (hs : selfCollides s (candidateHead config s) = false) :
    (willEat s (candidateHead config s) = true →
        (step config rand s).score = s.score + 10 ∧
        (step config rand s).snake.length = s.snake.length + 1 ∧
        (freeCells config (step config rand s).snake = [] ∨
          (step config rand s).food ∉ (step config rand s).snake)) ∧
    (willEat s (candidateHead config s) = false →
        (step config rand s).snake.length = s.snake.length ∧
        (step config rand s).food = s.food) ∧
    (step config rand s).tick = s.tick + 1 := by
  obtain ⟨hsc, hsn, hfd, htk, -⟩ := @step_advance_fields config rand s h0 hw hs
  refine ⟨?_, ?_, htk⟩
  · intro hwe
    rw [if_pos hwe] at hsc hsn hfd
    rw [if_pos hwe] at hfd
    refine ⟨hsc, by rw [hsn]; simp, ?_⟩
    rw [hsn, hfd]
    by_cases hful : freeCells config (candidateHead config s :: s.snake) = []
    · exact Or.inl hful
    · exact Or.inr (mem_freeCells.mp (spawnFood_mem rand hful)).2.2.2.2
  · intro hwe
    have hnwe : ¬ willEat s (candidateHead config s) = true := by
      rw [hwe]
      exact Bool.false_ne_true
    rw [if_neg hnwe] at hsc hsn hfd
    refine ⟨?_, hfd⟩
    rw [hsn]
    simp [List.length_dropLast]

/-- Witness for C3: a concrete eating step (score +10, length +1) and a
concrete non-eating step (length preserved, tick +1). -/
theorem step_eat_move_spec_witness :
    ((step boardPlain 0 stEat).score = stEat.score + 10 ∧
      (step boardPlain 0 stEat).snake.length = stEat.snake.length + 1) ∧
    ((step boardPlain 0 stMid).snake.length = stMid.snake.length ∧
      (step boardPlain 0 stMid).tick = stMid.tick + 1) :=
  ⟨⟨((step_eat_move_spec boardPlain 0 stEat rfl (by decide) (by decide) (by decide)).1
        (by decide)).1,
    ((step_eat_move_spec boardPlain 0 stEat rfl (by decide) (by decide) (by decide)).1
        (by decide)).2.1⟩,
   ⟨((step_eat_move_spec boardPlain 0 stMid rfl (by decide) (by decide) (by decide)).2.1
        (by decide)).1,
    (step_eat_move_spec boardPlain 0 stMid rfl (by decide) (by decide) (by decide)).2.2⟩⟩

/-- C4: the self-collision check compares the candidate head against the whole
current body when eating and against the body minus the tail cell otherwise;
a hit returns the state with only `isGameOver` flipped to `true`.
Consequently (for a duplicate-free body) moving into the tail-vacated cell is
fatal exactly when eating. -/
theorem step_selfCollision_spec (config : GameConfig) (rand : Nat) (s : GameState)
    (h0 : s.isGameOver = false) (hne : s.snake ≠ [])
    (hw : hitsWall config (candidateHead config s) = false) :
    (((if willEat s (candidateHead config s) then s.snake else s.snake.dropLast).any
        fun p => p.x == (candidateHead config s).x && p.y == (candidateHead config s).y) = true →
      step config rand s = { s with isGameOver := true }) ∧
    (s.snake.Nodup → candidateHead config s = s.snake.getLast hne →
      (willEat s (candidateHead config s) = true → (step config rand s).isGameOver = true) ∧
      (willEat s (candidateHead config s) = false → (step config rand s).isGameOver = false)) := by
  constructor
  · intro hcol
    exact step_eq_of_selfCollide h0 hw hcol
  · intro hnd htail
    constructor
    · intro hwe
      have hsc : selfCollides s (candidateHead config s) = true := by
        unfold selfCollides bodyToCheck
        rw [hwe, if_pos rfl, List.any_eq_true]
        exact ⟨candidateHead config s, htail ▸ List.getLast_mem hne, by simp⟩
      rw [step_eq_of_selfCollide h0 hw hsc]
    · intro hwe
      have hlast : s.snake.getLast hne ∉ s.snake.dropLast := by
        have hsplit := List.dropLast_append_getLast hne
        rw [← hsplit] at hnd
        obtain ⟨-, -, hdisj⟩ := List.nodup_append.mp hnd
        intro hmem
        exact hdisj hmem (List.mem_singleton_self _)
      have hsc : selfCollides s (candidateHead config s) = false := by
        unfold selfCollides bodyToCheck
        rw [hwe]
        simp only [Bool.false_eq_true, if_false, List.any_eq_false]
        intro p hp
        simp only [Bool.and_eq_true, beq_iff_eq, not_and]
        intro hx hy
        rw [Point.ext_xy hx hy, htail] at hp
        exact hlast hp
      rw [step_eq_of_advance h0 hw hsc]
      exact h0

/-- Witness for C4: a concrete non-eating move into a non-tail body cell
terminates the game with no other field changed. -/
theorem step_selfCollision_spec_witness :
    step boardPlain 0 stLoop = { stLoop with isGameOver := true } :=
  (step_selfCollision_spec boardPlain 0 stLoop rfl (by decide) (by decide)).1 (by decide)

/-- C9: with wrapping on and `cols, rows ≥ 1`, from any in-bounds head the
candidate head is the moved head with each coordinate wrapped as
`(coordinate + size).tmod size`; it lies inside
`[0, cols) × [0, rows)` (both coordinates non-negative), and the
wall-collision guard can never fire. -/
theorem candidateHead_wrap_spec (config : GameConfig) (s : GameState)
    (hwrap : config.wrapOn = true) (hc : 1 ≤ config.cols) (hr : 1 ≤ config.rows)
    (hne : s.snake ≠ [])
    (hx0 : 0 ≤ (s.snake.headD ⟨0, 0⟩).x) (hx1 : (s.snake.headD ⟨0, 0⟩).x < config.cols)
    (hy0 : 0 ≤ (s.snake.headD ⟨0, 0⟩).y) (hy1 : (s.snake.headD ⟨0, 0⟩).y < config.rows) :
    candidateHead config s =
      ⟨((moveHead s.direction (s.snake.headD ⟨0, 0⟩)).x + config.cols).tmod config.cols,
       ((moveHead s.direction (s.snake.headD ⟨0, 0⟩)).y + config.rows).tmod config.rows⟩ ∧
    0 ≤ (candidateHead config s).x ∧ (candidateHead config s).x < config.cols ∧
    0 ≤ (candidateHead config s).y ∧ (candidateHead config s).y < config.rows ∧
    hitsWall config (candidateHead config s) = false := by
  have hmx : -1 ≤ (moveHead s.direction (s.snake.headD ⟨0, 0⟩)).x ∧
      -1 ≤ (moveHead s.direction (s.snake.headD ⟨0, 0⟩)).y := by
    rcases hdir : s.direction <;> unfold moveHead <;> dsimp <;> omega
  have heq : candidateHead config s =
      ⟨((moveHead s.direction (s.snake.headD ⟨0, 0⟩)).x + config.cols).tmod config.cols,
       ((moveHead s.direction (s.snake.headD ⟨0, 0⟩)).y + config.rows).tmod config.rows⟩ := by
    unfold candidateHead wrapPoint
    rw [hwrap]
    rfl
  refine ⟨heq, ?_, ?_, ?_, ?_, ?_⟩
  · rw [heq]
    exact Int.tmod_nonneg _ (by omega)
  · rw [heq]
    exact Int.tmod_lt_of_pos _ (by omega)
  · rw [heq]
    exact Int.tmod_nonneg _ (by omega)
  · rw [heq]
    exact Int.tmod_lt_of_pos _ (by omega)
  · unfold hitsWall
    rw [hwrap]
    rfl

/-- Witness for C9: the head at (0,2) moving left on the 5×5 wrapping board
re-enters at the opposite edge, inside bounds, without hitting a wall. -/
theorem candidateHead_wrap_spec_witness :
    candidateHead boardWrap stWrapEdge =
      ⟨((moveHead stWrapEdge.direction (stWrapEdge.snake.headD ⟨0, 0⟩)).x +
          boardWrap.cols).tmod boardWrap.cols,
       ((moveHead stWrapEdge.direction (stWrapEdge.snake.headD ⟨0, 0⟩)).y +
          boardWrap.rows).tmod boardWrap.rows⟩ ∧
    0 ≤ (candidateHead boardWrap stWrapEdge).x ∧
    (candidateHead boardWrap stWrapEdge).x < boardWrap.cols ∧
    0 ≤ (candidateHead boardWrap stWrapEdge).y ∧
    (candidateHead boardWrap stWrapEdge).y < boardWrap.rows ∧
    hitsWall boardWrap (candidateHead boardWrap stWrapEdge) = false :=
  candidateHead_wrap_spec boardWrap stWrapEdge rfl (by decide) (by decide) (by decide)
    (by decide) (by decide) (by decide) (by decide)

/-- C10: when the food is the sentinel `(-1, -1)` and the head is in bounds
(on a board with `cols, rows ≥ 1`), `step` can never take the eating branch:
`willEat` is false, the score is unchanged, and the snake never grows. -/
theorem step_sentinel_inedible (config : GameConfig) (rand : Nat) (s : GameState)
    (hc : 1 ≤ config.cols) (hr : 1 ≤ config.rows) (hne : s.snake ≠ [])
    (hx0 : 0 ≤ (s.snake.headD ⟨0, 0⟩).x) (hx1 : (s.snake.headD ⟨0, 0⟩).x < config.cols)
    (hy0 : 0 ≤ (s.snake.headD ⟨0, 0⟩).y) (hy1 : (s.snake.headD ⟨0, 0⟩).y < config.rows)
    (hf : s.food = ⟨-1, -1⟩) :
    willEat s (candidateHead config s) = false ∧
    (step config rand s).score = s.score ∧
    (step config rand s).snake.length ≤ s.snake.length := by
  have key : 0 ≤ (candidateHead config s).x ∨ 0 ≤ (candidateHead config s).y := by
    unfold candidateHead wrapPoint
    by_cases hw : config.wrapOn
    · rw [if_pos hw]
      left
      dsimp
      refine Int.tmod_nonneg _ ?_
      have : -1 ≤ (moveHead s.direction (s.snake.headD ⟨0, 0⟩)).x := by
        rcases hdir : s.direction <;> unfold moveHead <;> dsimp <;> omega
      omega
    · rw [if_neg hw]
      rcases hdir : s.direction <;> unfold moveHead <;> dsimp
      · left; omega
      · left; omega
      · right; omega
      · right; omega
  have hwe : willEat s (candidateHead config s) = false := by
    unfold willEat
    rw [hf]
    rw [Bool.eq_false_iff]
    intro hcontra
    rw [Bool.and_eq_true, beq_iff_eq, beq_iff_eq] at hcontra
    obtain ⟨ha, hb⟩ := hcontra
    dsimp at ha hb
    rcases key with h | h <;> omega
  refine ⟨hwe, ?_⟩
  by_cases h0 : s.isGameOver = true
  · rw [step_eq_of_gameOver h0]
    exact ⟨rfl, le_refl _⟩
  · rw [Bool.not_eq_true] at h0
    by_cases hw : hitsWall config (candidateHead config s) = true
    · rw [step_eq_of_wall h0 hw]
      exact ⟨rfl, le_refl _⟩
    · rw [Bool.not_eq_true] at hw
      by_cases hsc : selfCollides s (candidateHead config s) = true
      · rw [step_eq_of_selfCollide h0 hw hsc]
        exact ⟨rfl, le_refl _⟩
      · rw [Bool.not_eq_true] at hsc
        obtain ⟨hscr, hsn, -, -, -⟩ := @step_advance_fields config rand s h0 hw hsc
        have hnwe : ¬ willEat s (candidateHead config s) = true := by
          rw [hwe]
          exact Bool.false_ne_true
        rw [if_neg hnwe] at hscr hsn
        refine ⟨hscr, ?_⟩
        rw [hsn]
        simp [List.length_dropLast]

/-- Witness for C10 on a concrete sentinel-food state: no eating, score and
length preserved. -/
theorem step_sentinel_inedible_witness :
    willEat stSentinel (candidateHead boardPlain stSentinel) = false ∧
    (step boardPlain 0 stSentinel).score = stSentinel.score ∧
    (step boardPlain 0 stSentinel).snake.length ≤ stSentinel.snake.length :=
  step_sentinel_inedible boardPlain 0 stSentinel (by decide) (by decide) (by decide)
    (by decide) (by decide) (by decide) (by decide) rfl

/-- C2 counterexample: the result of `step` depends on the value drawn from
the ambient random source (`Math.random()` inside `spawnFood`): on the same
configuration and the same eating state, two different draws produce
different next states, so two applications of `step` need not agree — the
source is not injectable, contrary to the claim. -/
theorem step_random_draw_dependent :
    step boardPlain 0 stEat ≠ step boardPlain 1 stEat := by decide

/-- C2 (amended): `step` is a deterministic function of the configuration,
the state, and the random draw; whenever the move does not eat the food, the
result is moreover independent of the draw, so only the post-eating food
position depends on the ambient `Math.random()`. -/
theorem step_deterministic_given_draw (config : GameConfig) (s : GameState)
    (r1 r2 : Nat) (hno : willEat s (candidateHead config s) = false) :
    step config r1 s = step config r2 s := by
  by_cases h0 : s.isGameOver = true
  · rw [step_eq_of_gameOver h0, step_eq_of_gameOver h0]
  · rw [Bool.not_eq_true] at h0
    by_cases hw : hitsWall config (candidateHead config s) = true
    · rw [step_eq_of_wall h0 hw, step_eq_of_wall h0 hw]
    · rw [Bool.not_eq_true] at hw
      by_cases hsc : selfCollides s (candidateHead config s) = true
      · rw [step_eq_of_selfCollide h0 hw hsc, step_eq_of_selfCollide h0 hw hsc]
      · rw [Bool.not_eq_true] at hsc
        rw [step_eq_of_advance h0 hw hsc, step_eq_of_advance h0 hw hsc]
        have hnwe : ¬ willEat s (candidateHead config s) = true := by
          rw [hno]
          exact Bool.false_ne_true
        rw [if_neg hnwe, if_neg hnwe, if_neg hnwe, if_neg hnwe]

/-- Witness for the amended C2: two different draws give the same next state
on a concrete non-eating move. -/
theorem step_deterministic_given_draw_witness :
    step boardPlain 0 stMid = step boardPlain 99 stMid :=
  step_deterministic_given_draw boardPlain stMid 0 99 (by decide)
